import Mathlib

/-!
Verification development for the HA-Companion-App frontend.

The definitions below are a shallow embedding of the JavaScript frontend:
`loadDashboard`, `initApp` and `handleSetup` from
`desktop-app/src/main.js`, and the settings-modal logic (`openSettings`,
`togglePassword`, `saveSettings`, `closeSettings`, `populateSensorList`)
from the settings module.  Sequential, event-driven callback code is
embedded as a function producing the ordered list of observable events;
DOM state touched by the settings modal is embedded as an explicit record
threaded through the operations.
-/

namespace HACompanion

/-- Character-list core of the URL cleanup `serverUrl.replace(/\/+$/, "")`:
the maximal run of trailing `'/'` characters is removed. -/
def dropTrailingSlashes (cs : List Char) : List Char :=
  (cs.reverse.dropWhile (fun c => c = '/')).reverse

/-- `serverUrl.replace(/\/+$/, "")` from `loadDashboard`: the regex
matches the maximal run of slashes anchored at the end of the string and
replaces it with the empty string. -/
def stripTrailingSlashes (s : String) : String :=
  ⟨dropTrailingSlashes s.data⟩

/-- Observable events of one `loadDashboard` invocation, in the order the
browser executes them:  assignments to `iframe.src`, the `load` event of
the blank page firing the `onload` handler, the `localStorage.setItem`
write of the credential object (or the caught failure with its
`console.warn`), and the container visibility changes. -/
inductive DashEvent where
  | setSrc (url : String)
  | loadFired
  | injectOk (key : String) (fields : List (String × String))
  | injectFailLogged
  | showContainer
  | hideContainer
deriving DecidableEq, Repr

/-- The key/value pairs of the object
`{ hassUrl: baseUrl, access_token: token, token_type: "Bearer" }`
serialized by `JSON.stringify` and written under the `"hassTokens"` key,
in source order. -/
def hassTokensFields (baseUrl token : String) : List (String × String) :=
  [("hassUrl", baseUrl), ("access_token", token), ("token_type", "Bearer")]

/-- Trace semantics of `loadDashboard(serverUrl, token)` from
`desktop-app/src/main.js`.  JavaScript falsiness of a string is emptiness,
so the guard `if (!serverUrl || !token)` hides the container and returns.
Otherwise the iframe is pointed at `about:blank`; when its load event
fires, the handler tries to write `hassTokens` into the iframe's
`localStorage` (`storageOk` says whether that write succeeds or throws,
the throw being caught and logged), and then — in both cases — assigns
the cleaned base URL to `iframe.src` and shows the container. -/
def loadDashboard (serverUrl token : String) (storageOk : Bool) :
    List DashEvent :=
  if serverUrl = "" ∨ token = "" then
    [DashEvent.hideContainer]
  else
    let baseUrl := stripTrailingSlashes serverUrl
    [DashEvent.setSrc "about:blank", DashEvent.loadFired] ++
    (if storageOk then
      [DashEvent.injectOk "hassTokens" (hassTokensFields baseUrl token)]
    else
      [DashEvent.injectFailLogged]) ++
    [DashEvent.setSrc baseUrl, DashEvent.showContainer]

/- Helper lemmas about `dropTrailingSlashes`. -/

theorem head_dropWhile_not_slash :
    ∀ (l : List Char) (a : Char),
      (l.dropWhile (fun c => c = '/')).head? = some a → ¬ a = '/' := by
  intro l
  induction l with
  | nil => intro a h; simp [List.dropWhile] at h
  | cons c cs ih =>
    intro a h
    by_cases hc : c = '/'
    · rw [List.dropWhile_cons_of_pos (by simp [hc])] at h
      exact ih a h
    · rw [List.dropWhile_cons_of_neg (by simp [hc])] at h
      simp at h
      rw [← h]
      exact hc

theorem dropTrailingSlashes_decomp (cs : List Char) :
    ∃ k : Nat, cs = dropTrailingSlashes cs ++ List.replicate k '/' := by
  refine ⟨(cs.reverse.takeWhile (fun c => c = '/')).length, ?_⟩
  unfold dropTrailingSlashes
  have hsplit := List.takeWhile_append_dropWhile
    (p := fun c => c = '/') (l := cs.reverse)
  have hrep : cs.reverse.takeWhile (fun c => c = '/') =
      List.replicate (cs.reverse.takeWhile (fun c => c = '/')).length '/' := by
    rw [List.eq_replicate_iff]
    refine ⟨rfl, ?_⟩
    intro b hb
    have := List.mem_takeWhile_imp hb
    simpa using this
  calc cs = cs.reverse.reverse := (List.reverse_reverse cs).symm
    _ = (cs.reverse.takeWhile (fun c => c = '/') ++
          cs.reverse.dropWhile (fun c => c = '/')).reverse := by rw [hsplit]
    _ = (cs.reverse.dropWhile (fun c => c = '/')).reverse ++
          (cs.reverse.takeWhile (fun c => c = '/')).reverse := by
          rw [List.reverse_append]
    _ = (cs.reverse.dropWhile (fun c => c = '/')).reverse ++
          List.replicate (cs.reverse.takeWhile (fun c => c = '/')).length '/' := by
          rw [← List.reverse_replicate, ← hrep]

theorem dropTrailingSlashes_getLast (cs : List Char) :
    (dropTrailingSlashes cs).getLast? ≠ some '/' := by
  unfold dropTrailingSlashes
  rw [List.getLast?_reverse]
  intro h
  exact head_dropWhile_not_slash _ _ h rfl

theorem dropTrailingSlashes_of_no_slash (cs : List Char)
    (h : cs.getLast? ≠ some '/') : dropTrailingSlashes cs = cs := by
  unfold dropTrailingSlashes
  rw [← List.head?_reverse] at h
  cases hrev : cs.reverse with
  | nil =>
    have : cs = [] := by simpa using congrArg List.reverse hrev
    simp [hrev, this]
  | cons a l =>
    rw [hrev] at h
    simp at h
    rw [List.dropWhile_cons_of_neg (by simpa using h)]
    rw [← hrev, List.reverse_reverse]

/-- For non-empty server URL and token, the bootstrap trace is the fixed
five-event sequence: blank-page assignment, load event, injection result,
base-URL assignment, container shown. -/
theorem loadDashboard_eq (su tok : String) (ok : Bool)
    (h1 : su ≠ "") (h2 : tok ≠ "") :
    loadDashboard su tok ok =
      [DashEvent.setSrc "about:blank", DashEvent.loadFired,
       (if ok then
          DashEvent.injectOk "hassTokens"
            (hassTokensFields (stripTrailingSlashes su) tok)
        else DashEvent.injectFailLogged),
       DashEvent.setSrc (stripTrailingSlashes su), DashEvent.showContainer] := by
  unfold loadDashboard
  rw [if_neg (by simp [h1, h2])]
  cases ok <;> simp

/-- Example inputs reused by the witness theorems. -/
def exUrl : String := "http://ha.local:8123/"

def exStrippedUrl : String := "http://ha.local:8123"

def exToken : String := "llat-secret-1"

/-- **C6**: the base URL computed by `loadDashboard` is the server URL with
the maximal run of trailing `'/'` characters removed — the original string
is the result followed by some number of slashes, the result itself has no
trailing slash, and a server URL without a trailing slash is left
unchanged; that base URL is exactly the one used for the credential
injection and for the navigation. -/
theorem c6_trailing_slashes_stripped (s : String) :
    (∃ k : Nat, s.data = (stripTrailingSlashes s).data ++ List.replicate k '/') ∧
    (stripTrailingSlashes s).data.getLast? ≠ some '/' ∧
    (s.data.getLast? ≠ some '/' → stripTrailingSlashes s = s) ∧
    (∀ tok : String, s ≠ "" → tok ≠ "" →
      (loadDashboard s tok true).get? 2
        = some (DashEvent.injectOk "hassTokens"
            (hassTokensFields (stripTrailingSlashes s) tok)) ∧
      (loadDashboard s tok true).get? 3
        = some (DashEvent.setSrc (stripTrailingSlashes s))) := by
  refine ⟨dropTrailingSlashes_decomp s.data, dropTrailingSlashes_getLast s.data,
    ?_, ?_⟩
  · intro h
    show (⟨dropTrailingSlashes s.data⟩ : String) = s
    rw [dropTrailingSlashes_of_no_slash s.data h]
  · intro tok h1 h2
    rw [loadDashboard_eq s tok true h1 h2]
    exact ⟨by simp, by simp⟩

/-- Witness for C6 at a concrete server URL with two trailing slashes. -/
theorem c6_trailing_slashes_stripped_witness :
    stripTrailingSlashes exStrippedUrl = exStrippedUrl ∧
    (loadDashboard exUrl exToken true).get? 3
      = some (DashEvent.setSrc (stripTrailingSlashes exUrl)) :=
  ⟨(c6_trailing_slashes_stripped exStrippedUrl).2.2.1 (by decide),
   ((c6_trailing_slashes_stripped exUrl).2.2.2 exToken (by decide) (by decide)).2⟩

/-- **C1**: with non-empty server URL and token and successful injection,
every assignment of the real dashboard URL to `iframe.src` in the
bootstrap trace is strictly preceded by the blank page's load event and,
after it, by the successfully returned credential-injection write. -/
theorem c1_navigation_after_injection (su tok : String)
    (h1 : su ≠ "") (h2 : tok ≠ "")
    (h3 : stripTrailingSlashes su ≠ "about:blank") :
    ∀ m, (loadDashboard su tok true).get? m
        = some (DashEvent.setSrc (stripTrailingSlashes su)) →
      ∃ i j, i < j ∧ j < m ∧
        (loadDashboard su tok true).get? i = some DashEvent.loadFired ∧
        (loadDashboard su tok true).get? j
          = some (DashEvent.injectOk "hassTokens"
              (hassTokensFields (stripTrailingSlashes su) tok)) := by
  intro m hm
  rw [loadDashboard_eq su tok true h1 h2] at hm ⊢
  rcases m with _|_|_|_|_|m
  · simp at hm
    exact absurd hm.symm h3
  · simp at hm
  · simp at hm
  · exact ⟨1, 2, by omega, by omega, by simp, by simp⟩
  · simp at hm
  · simp at hm

/-- Witness for C1: in the concrete trace the navigation sits at index 3,
after the load event (index 1) and the injection (index 2). -/
theorem c1_navigation_after_injection_witness :
    ∃ i j, i < j ∧ j < 3 ∧
      (loadDashboard exUrl exToken true).get? i = some DashEvent.loadFired ∧
      (loadDashboard exUrl exToken true).get? j
        = some (DashEvent.injectOk "hassTokens"
            (hassTokensFields (stripTrailingSlashes exUrl) exToken)) :=
  c1_navigation_after_injection exUrl exToken
    (by decide) (by decide) (by decide) 3 (by decide)

/-- **C3**: every URL ever assigned to `iframe.src` by the bootstrap is
either the inert blank page or the stripped base URL; and whenever the
token does not occur inside the server URL it does not occur inside that
base URL either, so the token never appears in the navigable address. -/
theorem c3_iframe_urls (su tok : String) (ok : Bool) :
    (∀ m u, (loadDashboard su tok ok).get? m = some (DashEvent.setSrc u) →
      u = "about:blank" ∨ u = stripTrailingSlashes su) ∧
    (¬ List.IsInfix tok.data su.data →
      ¬ List.IsInfix tok.data (stripTrailingSlashes su).data) := by
  constructor
  · intro m u hm
    by_cases hempty : su = "" ∨ tok = ""
    · unfold loadDashboard at hm
      rw [if_pos hempty] at hm
      rcases m with _|m <;> simp at hm
    · push_neg at hempty
      rw [loadDashboard_eq su tok ok hempty.1 hempty.2] at hm
      rcases m with _|_|_|_|_|m
      · simp at hm
        exact Or.inl hm.symm
      · simp at hm
      · cases ok <;> simp at hm
      · simp at hm
        exact Or.inr hm.symm
      · simp at hm
      · simp at hm
  · intro hni hinf
    apply hni
    obtain ⟨k, hk⟩ := dropTrailingSlashes_decomp su.data
    have hpre : List.IsPrefix (stripTrailingSlashes su).data su.data :=
      ⟨List.replicate k '/', hk.symm⟩
    exact hinf.trans hpre.isInfix

/-- Witness for C3 at the blank-page assignment of a concrete trace, and
for the token-free base URL of a concrete token-free server URL. -/
theorem c3_iframe_urls_witness :
    ("about:blank" = "about:blank" ∨
      "about:blank" = stripTrailingSlashes exUrl) ∧
    ¬ List.IsInfix exToken.data (stripTrailingSlashes exUrl).data :=
  ⟨(c3_iframe_urls exUrl exToken true).1 0 "about:blank" (by decide),
   (c3_iframe_urls exUrl exToken true).2 (by decide)⟩

/-- **C4**: with non-empty server URL and token but inaccessible iframe
storage, the bootstrap logs the caught injection failure and still
navigates to the base dashboard URL afterwards. -/
theorem c4_inject_failure_still_navigates (su tok : String)
    (h1 : su ≠ "") (h2 : tok ≠ "") :
    ∃ j k, j < k ∧
      (loadDashboard su tok false).get? j = some DashEvent.injectFailLogged ∧
      (loadDashboard su tok false).get? k
        = some (DashEvent.setSrc (stripTrailingSlashes su)) := by
  rw [loadDashboard_eq su tok false h1 h2]
  exact ⟨2, 3, by omega, by simp, by simp⟩

/-- Witness for C4 at concrete inputs. -/
theorem c4_inject_failure_still_navigates_witness :
    ∃ j k, j < k ∧
      (loadDashboard exUrl exToken false).get? j
        = some DashEvent.injectFailLogged ∧
      (loadDashboard exUrl exToken false).get? k
        = some (DashEvent.setSrc (stripTrailingSlashes exUrl)) :=
  c4_inject_failure_still_navigates exUrl exToken (by decide) (by decide)

/-- **C9**: every invocation of the bootstrap — `loadDashboard` is a pure
function of its arguments, so a re-invocation behaves identically —
starts by pointing the iframe at the blank page and contains the full
ordered three-step sequence: blank-page assignment, load event,
injection step (successful write or logged failure), then navigation to
the base URL. -/
theorem c9_reinvocation_full_sequence (su tok : String) (ok : Bool)
    (h1 : su ≠ "") (h2 : tok ≠ "") :
    (loadDashboard su tok ok).get? 0 = some (DashEvent.setSrc "about:blank") ∧
    ∃ i i' j k, i < i' ∧ i' < j ∧ j < k ∧
      (loadDashboard su tok ok).get? i = some (DashEvent.setSrc "about:blank") ∧
      (loadDashboard su tok ok).get? i' = some DashEvent.loadFired ∧
      ((loadDashboard su tok ok).get? j
          = some (DashEvent.injectOk "hassTokens"
              (hassTokensFields (stripTrailingSlashes su) tok)) ∨
        (loadDashboard su tok ok).get? j = some DashEvent.injectFailLogged) ∧
      (loadDashboard su tok ok).get? k
        = some (DashEvent.setSrc (stripTrailingSlashes su)) := by
  rw [loadDashboard_eq su tok ok h1 h2]
  refine ⟨by simp, 0, 1, 2, 3, by omega, by omega, by omega,
    by simp, by simp, ?_, by simp⟩
  cases ok
  · exact Or.inr (by simp)
  · exact Or.inl (by simp)

/-- Witness for C9 at concrete inputs. -/
theorem c9_reinvocation_full_sequence_witness :
    (loadDashboard exUrl exToken true).get? 0
      = some (DashEvent.setSrc "about:blank") :=
  (c9_reinvocation_full_sequence exUrl exToken true (by decide) (by decide)).1

/-- **C7 counterexample**: at a concrete invocation, the credential object
written under `"hassTokens"` has no `base_url` field — the base URL is
stored under the field name `hassUrl` instead, refuting the claimed field
names. -/
theorem c7_counterexample :
    (loadDashboard exUrl exToken true).get? 2
      = some (DashEvent.injectOk "hassTokens"
          (hassTokensFields exStrippedUrl exToken)) ∧
    (hassTokensFields exStrippedUrl exToken).lookup "base_url" = none ∧
    (hassTokensFields exStrippedUrl exToken).lookup "hassUrl"
      = some exStrippedUrl := by decide

/-- **C7 (amended)**: the credential object written into the iframe's
`localStorage` during bootstrap contains exactly the stripped base URL,
the access token, and the token type `"Bearer"`, under the field names
`hassUrl`, `access_token` and `token_type`. -/
theorem c7_hassTokens_fields (su tok : String)
    (h1 : su ≠ "") (h2 : tok ≠ "") :
    (loadDashboard su tok true).get? 2
      = some (DashEvent.injectOk "hassTokens"
          [("hassUrl", stripTrailingSlashes su), ("access_token", tok),
           ("token_type", "Bearer")]) := by
  rw [loadDashboard_eq su tok true h1 h2]
  simp [hassTokensFields]

/-- Witness for the amended C7 at concrete inputs. -/
theorem c7_hassTokens_fields_witness :
    (loadDashboard exUrl exToken true).get? 2
      = some (DashEvent.injectOk "hassTokens"
          [("hassUrl", stripTrailingSlashes exUrl), ("access_token", exToken),
           ("token_type", "Bearer")]) :=
  c7_hassTokens_fields exUrl exToken (by decide) (by decide)

/-- The record returned by the backend command `get_settings`, as consumed
by the frontend (`settings.server_url`, `settings.access_token`,
`settings.is_registered`, `settings.language`, `settings.device_id`,
`settings.webhook_id`, `settings.update_interval`, `settings.autostart`). -/
structure StoredSettings where
  server_url : String
  access_token : String
  update_interval : Int
  language : String
  autostart : Bool
  is_registered : Bool
  device_id : String
  webhook_id : String
deriving DecidableEq, Repr

/-- The action `initApp` takes after reading the settings. -/
inductive InitAction where
  | showSetup
  | showSetupPrefilled (url token : String)
  | loadDash (url token : String)
deriving DecidableEq, Repr

/-- `initApp` from `desktop-app/src/main.js`.  `none` is the case where the
`get_settings` invoke throws (the catch logs and shows the setup screen).
JavaScript string falsiness makes `!settings.server_url ||
!settings.access_token` an emptiness test; an unregistered configuration
shows the setup screen pre-filled; otherwise
`loadDashboard(settings.server_url, settings.access_token)` runs. -/
def initApp : Option StoredSettings → InitAction
  | none => InitAction.showSetup
  | some s =>
    if s.server_url = "" ∨ s.access_token = "" then InitAction.showSetup
    else if s.is_registered = false then
      InitAction.showSetupPrefilled s.server_url s.access_token
    else InitAction.loadDash s.server_url s.access_token

/-- **C5**: an empty server URL or empty access token makes `initApp` show
the setup screen and never load the dashboard; the dashboard is loaded
without further setup exactly when both are non-empty and the device is
registered; and a `loadDashboard` call with an empty argument only hides
the container. -/
theorem c5_init_gates_dashboard (os : Option StoredSettings) :
    (∀ s, os = some s → s.server_url = "" ∨ s.access_token = "" →
      initApp os = InitAction.showSetup) ∧
    (∀ u t, initApp os = InitAction.loadDash u t →
      ∃ s, os = some s ∧ s.server_url ≠ "" ∧ s.access_token ≠ "" ∧
        s.is_registered = true ∧ u = s.server_url ∧ t = s.access_token) ∧
    (∀ s, os = some s → s.server_url ≠ "" → s.access_token ≠ "" →
      s.is_registered = true →
      initApp os = InitAction.loadDash s.server_url s.access_token) ∧
    (∀ su tok ok, su = "" ∨ tok = "" →
      loadDashboard su tok ok = [DashEvent.hideContainer]) := by
  refine ⟨?_, ?_, ?_, ?_⟩
  · intro s hs he
    subst hs
    simp [initApp, if_pos he]
  · intro u t h
    cases os with
    | none => simp [initApp] at h
    | some s =>
      refine ⟨s, rfl, ?_⟩
      simp only [initApp] at h
      by_cases he : s.server_url = "" ∨ s.access_token = ""
      · rw [if_pos he] at h
        exact absurd h (by simp)
      · rw [if_neg he] at h
        push_neg at he
        by_cases hr : s.is_registered = false
        · rw [if_pos hr] at h
          exact absurd h (by simp)
        · rw [if_neg hr] at h
          simp at h hr
          exact ⟨he.1, he.2, hr, h.1.symm, h.2.symm⟩
  · intro s hs h1 h2 h3
    subst hs
    simp only [initApp]
    rw [if_neg (by simp [h1, h2]), if_neg (by simp [h3])]
  · intro su tok ok he
    unfold loadDashboard
    rw [if_pos he]

/-- A concrete registered configuration, used by the C5 witness. -/
def exRegisteredSettings : StoredSettings where
  server_url := exStrippedUrl
  access_token := exToken
  update_interval := 60
  language := "en"
  autostart := false
  is_registered := true
  device_id := "dev-1"
  webhook_id := "wh-1"

/-- Witness for C5: a registered configuration loads the dashboard. -/
theorem c5_init_gates_dashboard_witness :
    initApp (some exRegisteredSettings)
      = InitAction.loadDash exStrippedUrl exToken :=
  (c5_init_gates_dashboard _).2.2.1 _ rfl (by decide) (by decide) rfl

/- ## The interval field: `parseInt(value) || 60` -/

/-- Decimal digit value, `none` for a non-digit. -/
def digitVal (c : Char) : Option Nat :=
  if '0' ≤ c ∧ c ≤ '9' then some (c.toNat - '0'.toNat) else none

/-- Hexadecimal digit value, `none` for a non-hex-digit. -/
def hexDigitVal (c : Char) : Option Nat :=
  if '0' ≤ c ∧ c ≤ '9' then some (c.toNat - '0'.toNat)
  else if 'a' ≤ c ∧ c ≤ 'f' then some (c.toNat - 'a'.toNat + 10)
  else if 'A' ≤ c ∧ c ≤ 'F' then some (c.toNat - 'A'.toNat + 10)
  else none

/-- Accumulate leading digits in the given base, stopping at the first
character that is not a digit. -/
def parseDigitsAux (dv : Char → Option Nat) (base : Nat) :
    List Char → Nat → Nat
  | [], acc => acc
  | c :: cs, acc =>
    match dv c with
    | some d => parseDigitsAux dv base cs (acc * base + d)
    | none => acc

/-- `none` (NaN) when the first character is not a digit, otherwise the
value of the maximal leading digit run. -/
def parseLeadingDigits (dv : Char → Option Nat) (base : Nat)
    (cs : List Char) : Option Nat :=
  match cs with
  | [] => none
  | c :: cs' =>
    match dv c with
    | some d => some (parseDigitsAux dv base cs' d)
    | none => none

/-- After whitespace and sign, JavaScript `parseInt` with no radix reads a
`0x`/`0X` prefix as hexadecimal and otherwise parses decimal. -/
def parseIntBody (cs : List Char) : Option Nat :=
  match cs with
  | '0' :: 'x' :: rest => parseLeadingDigits hexDigitVal 16 rest
  | '0' :: 'X' :: rest => parseLeadingDigits hexDigitVal 16 rest
  | _ => parseLeadingDigits digitVal 10 cs

/-- JavaScript `parseInt(string)` with no radix argument: skip leading
whitespace, an optional sign, then parse the maximal leading digit run
(`0x`-prefixed input is hexadecimal); `none` models `NaN`. -/
def parseIntJS (s : String) : Option Int :=
  let cs := s.data.dropWhile Char.isWhitespace
  match cs with
  | '-' :: rest => (parseIntBody rest).map (fun n => -(n : Int))
  | '+' :: rest => (parseIntBody rest).map (fun n => (n : Int))
  | _ => (parseIntBody cs).map (fun n => (n : Int))

/-- The interval `saveSettings` submits:
`parseInt(document.getElementById("settings-interval").value) || 60`.
`NaN` and `0` are falsy, so both fall back to `60`; every other parsed
integer — negative ones included — is submitted as-is. -/
def submittedInterval (field : String) : Int :=
  match parseIntJS field with
  | none => 60
  | some n => if n = 0 then 60 else n

/-- The interval `handleSetup` submits: the literal `updateInterval: 60`. -/
def handleSetupInterval : Int := 60

/-- **C8 counterexample**: the interval field value `"-5"` parses to the
integer `-5`, which is truthy, so `saveSettings` submits `-5` — an
integer smaller than `1`, refuting the claimed lower bound. -/
theorem c8_counterexample :
    submittedInterval "-5" = -5 ∧ ¬ (1 ≤ submittedInterval "-5") := by
  decide

/-- **C8 (amended)**: the interval submitted by `saveSettings` is an
integer: `60` when the field does not parse to an integer or parses to
`0`, and otherwise exactly the parsed value, which may be negative;
`handleSetup` always submits `60`. -/
theorem c8_interval_submitted (field : String) :
    (parseIntJS field = none → submittedInterval field = 60) ∧
    (parseIntJS field = some 0 → submittedInterval field = 60) ∧
    (∀ n : Int, parseIntJS field = some n → n ≠ 0 →
      submittedInterval field = n) ∧
    handleSetupInterval = 60 := by
  refine ⟨?_, ?_, ?_, rfl⟩
  · intro h
    simp [submittedInterval, h]
  · intro h
    simp [submittedInterval, h]
  · intro n h hn
    simp [submittedInterval, h, hn]

/-- Witness for the amended C8: `"90"` is submitted unchanged. -/
theorem c8_interval_submitted_witness : submittedInterval "90" = 90 :=
  (c8_interval_submitted "90").2.2.1 90 (by decide) (by decide)

/- ## Sensor checkbox toggling -/

/-- One sensor row of the settings modal: the checkbox state the user sees
and the last successfully persisted enablement. -/
structure SensorBox where
  displayed : Bool
  persisted : Bool
deriving DecidableEq, Repr

/-- One user click on a sensor checkbox followed by the `change` handler
from `populateSensorList`: the click flips `checkbox.checked`, the handler
invokes `toggle_sensor` with the new value (`ok` says whether the invoke
succeeds), and on failure runs `checkbox.checked = !checkbox.checked`,
flipping the box back. -/
def toggleChange (st : SensorBox) (ok : Bool) : SensorBox :=
  let newChecked := ! st.displayed
  if ok then { displayed := newChecked, persisted := newChecked }
  else { displayed := ! newChecked, persisted := st.persisted }

/-- A sequence of checkbox clicks with the success of each
`toggle_sensor` invoke. -/
def runToggles (st : SensorBox) (oks : List Bool) : SensorBox :=
  oks.foldl toggleChange st

theorem runToggles_agree (oks : List Bool) :
    ∀ st : SensorBox, st.displayed = st.persisted →
      (runToggles st oks).displayed = (runToggles st oks).persisted := by
  induction oks with
  | nil => intro st h; exact h
  | cons ok oks ih =>
    intro st h
    show (runToggles (toggleChange st ok) oks).displayed
      = (runToggles (toggleChange st ok) oks).persisted
    apply ih
    cases ok <;> simp [toggleChange, h]

/-- **C10**: a checkbox starting in sync with its persisted enablement
stays in sync across any sequence of clicks with arbitrary
`toggle_sensor` outcomes, and a failed `toggle_sensor` leaves both the
displayed checkbox and the persisted enablement exactly as they were
before the click. -/
theorem c10_failed_toggle_reverts (enabled : Bool) (oks : List Bool) :
    ((runToggles { displayed := enabled, persisted := enabled } oks).displayed
      = (runToggles { displayed := enabled, persisted := enabled }
          oks).persisted) ∧
    ∀ st : SensorBox, (toggleChange st false).displayed = st.displayed ∧
      (toggleChange st false).persisted = st.persisted := by
  refine ⟨runToggles_agree oks _ rfl, ?_⟩
  intro st
  constructor
  · simp [toggleChange]
  · simp [toggleChange]

/- ## Settings modal: token display and logging -/

/-- `currentSettings.device_id || "-"` from `openSettings`. -/
def deviceDisplay (d : String) : String :=
  if d = "" then "-" else d

/-- `webhook_id ? webhook_id.substring(0, 16) + "..." : "-"` from
`openSettings`: only a 16-character prefix of the webhook id is shown. -/
def webhookDisplay (w : String) : String :=
  if w = "" then "-" else (⟨w.data.take 16⟩ : String) ++ "..."

/-- `t("registered")` from the i18n module: the `translations` table maps
the key to `"Registered"` in English and `"Geregistreerd"` in Dutch, and
`t` reads `translations[currentLanguage] || translations.en`, so every
current language other than `"nl"` falls back to the English entry. -/
def tRegistered (lang : String) : String :=
  if lang = "nl" then "Geregistreerd" else "Registered"

/-- `t("not_registered")` from the i18n module: `"Not registered"` in
English, `"Niet geregistreerd"` in Dutch, with the same English fallback
as `t("registered")`. -/
def tNotRegistered (lang : String) : String :=
  if lang = "nl" then "Niet geregistreerd" else "Not registered"

/-- The status line of `openSettings`:
`currentSettings.is_registered ? t("registered") : t("not_registered")`,
evaluated at the current language. -/
def statusDisplay (lang : String) (registered : Bool) : String :=
  if registered then tRegistered lang else tNotRegistered lang

/-- The `currentLanguage` update performed by `setLanguage` in the i18n
module: a language without a `translations` entry — anything other than
`"en"` and `"nl"` — falls back to `"en"` (after logging a warning). -/
def setLanguageClamp (lang : String) : String :=
  if lang = "en" ∨ lang = "nl" then lang else "en"

/-- State of the settings modal touched by the embedded operations: the
token input's value and its `type` attribute, the `textContent` of the
info elements whose content derives from the stored settings record, the
i18n module's `currentLanguage` global, the console log entries as
(static message, interpolated payload) pairs, and the overlay
visibility. -/
structure SettingsUI where
  tokenFieldValue : String
  tokenFieldKind : String
  deviceIdText : String
  webhookText : String
  statusText : String
  myIpText : String
  currentLanguage : String
  logged : List (String × String)
  overlayVisible : Bool
deriving DecidableEq, Repr

/-- Modelled from the spec: the settings markup (HTML) is not in the
repository; the spec's invariant that the access token is never displayed
in full entails that the token input starts as a masked field of type
`"password"`, which `togglePassword` then switches to `"text"` and back.
The initial language is the i18n module's `let currentLanguage = "en"`. -/
def initialSettingsUI : SettingsUI where
  tokenFieldValue := ""
  tokenFieldKind := "password"
  deviceIdText := "-"
  webhookText := "-"
  statusText := "-"
  myIpText := "-"
  currentLanguage := "en"
  logged := []
  overlayVisible := false

/-- The settings-UI operations of the claim: `openSettings` with the
settings `get_settings` returned (or its catch branch when the invoke
throws), `togglePassword` with the id of the targeted input,
`saveSettings` with the outcome of the `save_settings` invoke, the
language select's value it passes to `setLanguage` on success, and the
error payload on failure, and `closeSettings`. -/
inductive SettingsOp where
  | openSettings (s : StoredSettings)
  | openSettingsFailed (errMsg : String)
  | togglePassword (inputId : String)
  | saveSettings (ok : Bool) (lang : String) (errMsg : String)
  | closeSettings
deriving DecidableEq, Repr

/-- One settings-UI operation on the modelled DOM state, translated from
the settings module and the i18n module: `openSettings` fills the token
input with the full `access_token`, shows the device id in full, the
webhook id truncated, the translated status label, and resets the IP
line to `"-"`; `togglePassword` flips the targeted input between
`"password"` and `"text"`; a successful `saveSettings` runs
`setLanguage` on the selected language (logging the fallback warning for
an unsupported one) and closes the overlay, while a failed one logs its
static message with the error payload. -/
def applyOp (st : SettingsUI) : SettingsOp → SettingsUI
  | SettingsOp.openSettings s =>
    { st with
      tokenFieldValue := s.access_token
      deviceIdText := deviceDisplay s.device_id
      webhookText := webhookDisplay s.webhook_id
      statusText := statusDisplay st.currentLanguage s.is_registered
      myIpText := "-"
      overlayVisible := true }
  | SettingsOp.openSettingsFailed e =>
    { st with logged := ("Failed to load settings:", e) :: st.logged }
  | SettingsOp.togglePassword i =>
    if i = "settings-token" then
      { st with tokenFieldKind :=
          if st.tokenFieldKind = "password" then "text" else "password" }
    else st
  | SettingsOp.saveSettings ok lang e =>
    if ok then
      { st with
        currentLanguage := setLanguageClamp lang
        logged :=
          if lang = "en" ∨ lang = "nl" then st.logged
          else ("Language not supported, falling back to en", lang) :: st.logged
        overlayVisible := false }
    else { st with logged := ("Failed to save settings:", e) :: st.logged }
  | SettingsOp.closeSettings => { st with overlayVisible := false }

/-- Run a sequence of settings-UI operations from the initial state. -/
def runSettingsOps (ops : List SettingsOp) : SettingsUI :=
  ops.foldl applyOp initialSettingsUI

/-- Some console log entry contains the given string in full. -/
def logDiscloses (token : String) (logs : List (String × String)) : Prop :=
  ∃ p ∈ logs, p.1 = token ∨ p.2 = token

/-- The given string is visible in full in the modelled UI state: as the
value of a token input whose `type` is `"text"`, as the `textContent` of
one of the info elements, or inside a console log entry. -/
def disclosesToken (st : SettingsUI) (token : String) : Prop :=
  (st.tokenFieldKind = "text" ∧ st.tokenFieldValue = token) ∨
  st.deviceIdText = token ∨ st.webhookText = token ∨
  st.statusText = token ∨ st.myIpText = token ∨
  logDiscloses token st.logged

instance (token : String) (logs : List (String × String)) :
    Decidable (logDiscloses token logs) := by
  unfold logDiscloses
  exact inferInstance

instance (st : SettingsUI) (token : String) :
    Decidable (disclosesToken st token) := by
  unfold disclosesToken
  exact inferInstance

/-- A settings-UI operation that neither reveals the token field nor puts
the token into a text element or log entry: it is not the visibility
toggle of the token input, the strings it displays (under either
available language) differ from the token, and its logged payloads and
static messages differ from the token. -/
def opSafe (token : String) : SettingsOp → Prop
  | SettingsOp.openSettings s =>
    deviceDisplay s.device_id ≠ token ∧ webhookDisplay s.webhook_id ≠ token ∧
    statusDisplay "en" s.is_registered ≠ token ∧
    statusDisplay "nl" s.is_registered ≠ token
  | SettingsOp.openSettingsFailed e =>
    "Failed to load settings:" ≠ token ∧ e ≠ token
  | SettingsOp.togglePassword i => i ≠ "settings-token"
  | SettingsOp.saveSettings ok lang e =>
    (ok = false → "Failed to save settings:" ≠ token ∧ e ≠ token) ∧
    (ok = true →
      "Language not supported, falling back to en" ≠ token ∧ lang ≠ token)
  | SettingsOp.closeSettings => True

instance (token : String) (op : SettingsOp) : Decidable (opSafe token op) := by
  cases op <;> (unfold opSafe; exact inferInstance)

theorem applyOp_safe (token : String) (htok : token ≠ "-")
    (st : SettingsUI) (op : SettingsOp)
    (h1 : ¬ disclosesToken st token) (h2 : st.tokenFieldKind = "password")
    (h3 : st.currentLanguage = "en" ∨ st.currentLanguage = "nl")
    (hop : opSafe token op) :
    ¬ disclosesToken (applyOp st op) token ∧
      (applyOp st op).tokenFieldKind = "password" ∧
      ((applyOp st op).currentLanguage = "en" ∨
        (applyOp st op).currentLanguage = "nl") := by
  unfold disclosesToken at h1
  push_neg at h1
  obtain ⟨hfield, hdev, hweb, hstat, hip, hlog⟩ := h1
  cases op with
  | openSettings s =>
    obtain ⟨hs1, hs2, hs3, hs4⟩ := hop
    have hstatNew : statusDisplay st.currentLanguage s.is_registered ≠ token := by
      rcases h3 with hl | hl <;> rw [hl]
      · exact hs3
      · exact hs4
    refine ⟨?_, by simpa [applyOp] using h2, by simpa [applyOp] using h3⟩
    unfold disclosesToken
    push_neg
    exact ⟨fun ha => absurd (by simpa [applyOp] using ha) (by simp [h2]),
      by simpa [applyOp] using hs1, by simpa [applyOp] using hs2,
      by simpa [applyOp] using hstatNew,
      by simpa [applyOp] using Ne.symm htok,
      by simpa [applyOp] using hlog⟩
  | openSettingsFailed e =>
    obtain ⟨hs1, hs2⟩ := hop
    refine ⟨?_, by simpa [applyOp] using h2, by simpa [applyOp] using h3⟩
    unfold disclosesToken logDiscloses
    push_neg
    refine ⟨by simpa [applyOp] using hfield, by simpa [applyOp] using hdev,
      by simpa [applyOp] using hweb, by simpa [applyOp] using hstat,
      by simpa [applyOp] using hip, ?_⟩
    simp only [applyOp]
    intro p hp
    rcases List.mem_cons.mp hp with hpe | hpl
    · subst hpe
      exact ⟨hs1, hs2⟩
    · exact ⟨fun hq => (hlog ⟨p, hpl, Or.inl hq⟩).elim,
        fun hq => (hlog ⟨p, hpl, Or.inr hq⟩).elim⟩
  | togglePassword i =>
    have hi : ¬ i = "settings-token" := hop
    rw [applyOp, if_neg hi]
    refine ⟨?_, h2, h3⟩
    unfold disclosesToken
    push_neg
    exact ⟨hfield, hdev, hweb, hstat, hip, hlog⟩
  | saveSettings ok lang e =>
    obtain ⟨hfail, hsucc⟩ := hop
    cases ok with
    | true =>
      obtain ⟨hw1, hw2⟩ := hsucc rfl
      rw [applyOp, if_pos rfl]
      refine ⟨?_, by simpa using h2, ?_⟩
      · unfold disclosesToken logDiscloses
        push_neg
        refine ⟨by simpa using hfield, by simpa using hdev, by simpa using hweb,
          by simpa using hstat, by simpa using hip, ?_⟩
        simp only
        by_cases hl : lang = "en" ∨ lang = "nl"
        · rw [if_pos hl]
          intro p hp
          exact ⟨fun hq => (hlog ⟨p, hp, Or.inl hq⟩).elim,
            fun hq => (hlog ⟨p, hp, Or.inr hq⟩).elim⟩
        · rw [if_neg hl]
          intro p hp
          rcases List.mem_cons.mp hp with hpe | hpl
          · subst hpe
            exact ⟨hw1, hw2⟩
          · exact ⟨fun hq => (hlog ⟨p, hpl, Or.inl hq⟩).elim,
              fun hq => (hlog ⟨p, hpl, Or.inr hq⟩).elim⟩
      · show setLanguageClamp lang = "en" ∨ setLanguageClamp lang = "nl"
        unfold setLanguageClamp
        by_cases hl : lang = "en" ∨ lang = "nl"
        · rw [if_pos hl]
          exact hl
        · rw [if_neg hl]
          exact Or.inl rfl
    | false =>
      obtain ⟨hs1, hs2⟩ := hfail rfl
      rw [applyOp, if_neg (by simp)]
      refine ⟨?_, by simpa using h2, by simpa using h3⟩
      unfold disclosesToken logDiscloses
      push_neg
      refine ⟨by simpa using hfield, by simpa using hdev, by simpa using hweb,
        by simpa using hstat, by simpa using hip, ?_⟩
      simp only
      intro p hp
      rcases List.mem_cons.mp hp with hpe | hpl
      · subst hpe
        exact ⟨hs1, hs2⟩
      · exact ⟨fun hq => (hlog ⟨p, hpl, Or.inl hq⟩).elim,
          fun hq => (hlog ⟨p, hpl, Or.inr hq⟩).elim⟩
  | closeSettings =>
    rw [applyOp]
    refine ⟨?_, h2, h3⟩
    unfold disclosesToken
    push_neg
    exact ⟨by simpa using hfield, by simpa using hdev, by simpa using hweb,
      by simpa using hstat, by simpa using hip, by simpa using hlog⟩

theorem foldl_applyOp_safe (token : String) (htok : token ≠ "-") :
    ∀ (ops : List SettingsOp) (st : SettingsUI),
      ¬ disclosesToken st token → st.tokenFieldKind = "password" →
      (st.currentLanguage = "en" ∨ st.currentLanguage = "nl") →
      (∀ op ∈ ops, opSafe token op) →
      ¬ disclosesToken (ops.foldl applyOp st) token := by
  intro ops
  induction ops with
  | nil => intro st h1 _ _ _; exact h1
  | cons op ops ih =>
    intro st h1 h2 h3 hops
    have hstep := applyOp_safe token htok st op h1 h2 h3
      (hops op (List.mem_cons_self op ops))
    exact ih (applyOp st op) hstep.1 hstep.2.1 hstep.2.2
      (fun o ho => hops o (List.mem_cons_of_mem op ho))

/-- A concrete stored configuration whose access token the C2
counterexample reveals. -/
def exC2Settings : StoredSettings where
  server_url := "http://ha.local:8123"
  access_token := "tok-secret-c2"
  update_interval := 60
  language := "en"
  autostart := false
  is_registered := true
  device_id := "dev-1"
  webhook_id := "wh-abcdef01234567890"

/-- **C2 counterexample**: after `openSettings` fills the token input and
`togglePassword` switches it to type `"text"` — a state reachable through
the cited settings-UI operations — the persisted access token is
displayed in full, refuting the claim as stated. -/
theorem c2_counterexample :
    disclosesToken
      (runSettingsOps [SettingsOp.openSettings exC2Settings,
        SettingsOp.togglePassword "settings-token"])
      "tok-secret-c2" := by
  decide

/-- **C2 (amended)**: across every sequence of settings-UI operations that
does not toggle the token input's visibility — with the token distinct
from the displayed device strings, the translated status labels and the
log payloads — the access token is never logged and never displayed in
full: it sits only in the token input, which keeps its masked
`"password"` type; an explicit `togglePassword` on that input is the only
way to display it. -/
theorem c2_token_kept_masked (ops : List SettingsOp) (token : String)
    (htok : token ≠ "-") (hops : ∀ op ∈ ops, opSafe token op) :
    ¬ disclosesToken (runSettingsOps ops) token := by
  refine foldl_applyOp_safe token htok ops initialSettingsUI ?_ rfl
    (Or.inl rfl) hops
  intro h
  rcases h with ⟨hk, -⟩ | h | h | h | h | h
  · exact absurd hk (by decide)
  · exact htok h.symm
  · exact htok h.symm
  · exact htok h.symm
  · exact htok h.symm
  · unfold logDiscloses at h
    obtain ⟨p, hp, -⟩ := h
    exact absurd hp (List.not_mem_nil p)

/-- Witness for the amended C2: opening settings on a concrete
configuration, failing a save, and saving with the Dutch language never
shows or logs the token. -/
theorem c2_token_kept_masked_witness :
    ¬ disclosesToken
      (runSettingsOps [SettingsOp.openSettings exC2Settings,
        SettingsOp.saveSettings false "en" "network unreachable",
        SettingsOp.saveSettings true "nl" "",
        SettingsOp.closeSettings])
      "tok-secret-c2" :=
  c2_token_kept_masked
    [SettingsOp.openSettings exC2Settings,
     SettingsOp.saveSettings false "en" "network unreachable",
     SettingsOp.saveSettings true "nl" "",
     SettingsOp.closeSettings]
    "tok-secret-c2" (by decide) (by decide)

end HACompanion
